import Mathlib

/-
Verification of the Snackbar visibility/animation lifecycle of
react-native-paper (src/components/SnackBar.js).

The component is embedded as an explicit state machine.  The record
`Component` mirrors the instance fields of the `Snackbar` class:
the last seen props (`visible`, `duration`, whether an `action`
descriptor was supplied), the two animated values (`state.opacity`,
`state.yPosition`, each modelled by its current animation target and an
in-flight flag), the `_hideTimeout` handle and the mounted flag.  The
record `Sys` adds the platform environment: the multiset of armed
`setTimeout` timers (each timer created by the component calls
`props.onDismiss`), a fresh-id counter (real JS timer ids are nonzero),
and counters of emitted callbacks.

Events delivered by the environment are modelled by `Event` and a
partial step function `step`.  Modelling assumptions, stated once here:
  * Starting a new animation on an Animated.Value stops the in-flight
    one and synchronously invokes the stopped animation's start-callback
    with finished:false (with Animated.parallel's default stopTogether,
    the composite's callback fires once the same way).  The show's
    completion callback ignores the finished flag, so it runs — and arms
    the auto-dismiss timer — both on genuine completion and when the
    show is preempted by a retarget.  `_show` and `_hide` therefore run
    the preempted show's callback whenever a show animation was in
    flight when they retargeted the values; the hide animation's start
    has no callback, so preempting a hide runs nothing.  In `_hide` the
    clearTimeout runs before the retarget, hence before the preempted
    callback arms its timer.
  * The `showComplete` event is the genuine completion of an
    uninterrupted show animation, so it is enabled only while the show
    animation is in flight; a preempted show's callback instead runs
    inside the `_show`/`_hide` call that preempted it.
  * React delivers prop updates and user taps only while the component
    is mounted; platform timers, however, fire regardless of mounting,
    because the class declares no componentWillUnmount and therefore
    never cancels a timer on unmount.
-/

namespace SnackBar

/-- Display duration prop.  The documented enumerated values are
`indefinite`, `short` and `long`; `numeric` covers an explicit numeric
value (the class's own `defaultProps` uses the number `DURATION_LONG`). -/
inductive Duration
  | indefinite
  | short
  | long
  | numeric (ms : Nat)
  deriving DecidableEq, Repr

def SNACKBAR_ANIMATION_DURATION : Nat := 250

def DURATION_SHORT : Nat := 2000

def DURATION_LONG : Nat := 3500

/-- Delay selected inside the completion callback of `_show`:
`duration === 'short' ? DURATION_SHORT : DURATION_LONG`. -/
def timeoutDelay : Duration → Nat
  | .short => DURATION_SHORT
  | _ => DURATION_LONG

/-- An armed platform timer created by `setTimeout(this.props.onDismiss, delay)`. -/
structure Timer where
  id : Nat
  delay : Nat
  deriving DecidableEq, Repr

/-- Instance state of the `Snackbar` class: last seen props, the two
animated values (target and in-flight flag), the `_hideTimeout` handle
and whether the component is mounted.  Visible targets are
`opacity = 1`, `yPosition = 0`; hidden targets are `opacity = 0`,
`yPosition = 48` (the initial values of `state.opacity` and
`state.yPosition`). -/
structure Component where
  propsVisible : Bool
  propsDuration : Duration
  hasAction : Bool
  opacityTarget : Nat
  opacityAnimating : Bool
  yTarget : Nat
  yAnimating : Bool
  hideTimeout : Option Nat
  mounted : Bool
  deriving DecidableEq, Repr

/-- The component together with its environment: armed platform timers,
the timer-id source, and counters of the callbacks the component has
emitted (`props.onDismiss`, `action.onPress`, and dismiss callbacks
that were delivered after the component was unmounted). -/
structure Sys where
  comp : Component
  timers : List Timer
  nextId : Nat
  dismissCalls : Nat
  actionCalls : Nat
  dismissAfterUnmount : Nat
  deriving DecidableEq, Repr

/-- Model of `setTimeout(this.props.onDismiss, delay)` followed by storing
the returned id in `this._hideTimeout`. -/
def armTimeout (s : Sys) (delay : Nat) : Sys :=
  { s with
    comp := { s.comp with hideTimeout := some s.nextId },
    timers := s.timers ++ [⟨s.nextId, delay⟩],
    nextId := s.nextId + 1 }

/-- The start-callback `_show` passes to `Animated.parallel(...).start`:
if the duration is not `'indefinite'`, arm the auto-dismiss timer.  The
callback ignores the finished flag, so it behaves the same whether the
show ran to completion or was stopped by a retarget. -/
def showCallback (s : Sys) : Sys :=
  if s.comp.propsDuration ≠ Duration.indefinite then
    armTimeout s (timeoutDelay s.comp.propsDuration)
  else s

/-- The show animation is currently in flight (both values are animating
toward the visible targets). -/
def showInFlight (c : Component) : Bool :=
  c.opacityAnimating && c.opacityTarget == 1

/-- The hide animation is currently in flight. -/
def hideInFlight (c : Component) : Bool :=
  c.opacityAnimating && c.opacityTarget == 0

/-- Model of `_show`: `Animated.parallel` retargets both `state.opacity`
(to 1) and `state.yPosition` (to 0) and starts both animations.  If a
show animation was in flight, starting the new animations stops it and
synchronously runs its start-callback with finished:false, which —
the flag being ignored — arms a timer; an in-flight hide has no
callback.  On genuine completion the callback runs via `showComplete`
instead. -/
def _show (s : Sys) : Sys :=
  let s2 : Sys := { s with comp := { s.comp with
      opacityTarget := 1, opacityAnimating := true,
      yTarget := 0, yAnimating := true } }
  if showInFlight s.comp then showCallback s2 else s2

/-- Model of `if (this._hideTimeout) clearTimeout(this._hideTimeout)`:
when the handle is set, the armed timer with that id (if any) is
disarmed.  Real JS timer ids are nonzero, so the truthiness test on the
handle is its being set. -/
def clearHideTimeout (s : Sys) : List Timer :=
  match s.comp.hideTimeout with
  | some h => s.timers.filter (fun t => t.id != h)
  | none => s.timers

/-- Model of `_hide`: first `if (this._hideTimeout)
clearTimeout(this._hideTimeout)` disarms the timer the handle points to,
then `Animated.parallel(...).start()` retargets both values to their
hidden targets.  If a show animation was in flight, that `start` stops
it and synchronously runs its start-callback with finished:false — after
the clear — arming a fresh timer that this `_hide` does not cancel. -/
def _hide (s : Sys) : Sys :=
  let s1 : Sys := { s with timers := clearHideTimeout s }
  let s2 : Sys := { s1 with comp := { s1.comp with
      opacityTarget := 0, opacityAnimating := true,
      yTarget := 48, yAnimating := true } }
  if showInFlight s.comp then showCallback s2 else s2

/-- Events delivered to a single Snackbar instance by its environment:
prop updates, animation completions, timer firings, user taps, and
unmounting. -/
inductive Event
  | setVisible (b : Bool)
  | showComplete
  | hideComplete
  | timerFire (id : Nat)
  | tapBody
  | tapAction
  | unmount
  deriving DecidableEq, Repr

/-- One environment event.  `none` means the event is not enabled in this
state (e.g. a completion with no such animation in flight, or a firing
of a timer that is not armed).

`setVisible` is `componentDidUpdate`: it runs `_show`/`_hide` only when
`prevProps.visible !== this.props.visible`.  `showComplete` runs the
completion callback of `_show`, which arms the timer.  `hideComplete`
runs the (empty) completion of `_hide`.  `timerFire` is the platform
delivering an armed timer: it always calls `props.onDismiss`, even
after unmount, since the class has no componentWillUnmount.  `tapBody`
is the `TouchableWithoutFeedback onPress={onDismiss}` wrapping the body.
`tapAction` is the action control's handler
`() => { action.onPress(); this._hide(); }`.  `unmount` destroys the
component; no cleanup runs. -/
def step (s : Sys) (e : Event) : Option Sys :=
  match e with
  | .setVisible b =>
      if s.comp.mounted then
        let s1 : Sys := { s with comp := { s.comp with propsVisible := b } }
        if s.comp.propsVisible ≠ b then
          some (if b then _show s1 else _hide s1)
        else
          some s1
      else none
  | .showComplete =>
      if s.comp.mounted && showInFlight s.comp then
        some (showCallback { s with comp := { s.comp with
          opacityAnimating := false, yAnimating := false } })
      else none
  | .hideComplete =>
      if s.comp.mounted && hideInFlight s.comp then
        some { s with comp := { s.comp with
          opacityAnimating := false, yAnimating := false } }
      else none
  | .timerFire id =>
      if (s.timers.map Timer.id).contains id then
        some { s with
          timers := s.timers.filter (fun t => t.id != id),
          dismissCalls := s.dismissCalls + 1,
          dismissAfterUnmount :=
            s.dismissAfterUnmount + (if s.comp.mounted then 0 else 1) }
      else none
  | .tapBody =>
      if s.comp.mounted then
        some { s with dismissCalls := s.dismissCalls + 1 }
      else none
  | .tapAction =>
      if s.comp.mounted && s.comp.hasAction then
        some (_hide { s with actionCalls := s.actionCalls + 1 })
      else none
  | .unmount =>
      if s.comp.mounted then
        some { s with comp := { s.comp with mounted := false } }
      else none

/-- Apply an event, staying put when it is not enabled. -/
def stepOr (s : Sys) (e : Event) : Sys :=
  (step s e).getD s

/-- A freshly constructed, mounted instance: `state.opacity = 0`,
`state.yPosition = 48`, no animation in flight, no `_hideTimeout`;
`componentDidMount` then calls `_show` when `props.visible` is true. -/
def init (visible : Bool) (dur : Duration) (hasAction : Bool) : Sys :=
  let s0 : Sys :=
    { comp :=
        { propsVisible := visible, propsDuration := dur,
          hasAction := hasAction,
          opacityTarget := 0, opacityAnimating := false,
          yTarget := 48, yAnimating := false,
          hideTimeout := none, mounted := true },
      timers := [], nextId := 1,
      dismissCalls := 0, actionCalls := 0, dismissAfterUnmount := 0 }
  if visible then _show s0 else s0

/-- Run a sequence of environment events. -/
def run (s : Sys) : List Event → Sys
  | [] => s
  | e :: es => run (stepOr s e) es

/-- Well-formedness assumptions used as preconditions by the
scenario theorems below: at most one platform timer is armed; every
armed timer's id is the one stored in `_hideTimeout`; no timer is armed
while the show animation is still in flight; a show in flight means the
last seen `visible` prop is true; and no timer is armed while `visible`
is false.  These hold on the concrete scenario states the claims start
from (each witness checks them by evaluation), but they are not
preserved by every event: preempting an in-flight show arms a timer
while `visible` is false, which is exactly the defect the C1 and C4
theorems exhibit. -/
def inv (s : Sys) : Prop :=
  s.timers.length ≤ 1 ∧
  (∀ t ∈ s.timers, s.comp.hideTimeout = some t.id) ∧
  (showInFlight s.comp = true → s.timers = []) ∧
  (showInFlight s.comp = true → s.comp.propsVisible = true) ∧
  (s.comp.propsVisible = false → s.timers = [])

instance : DecidablePred inv := fun s => by
  unfold inv; infer_instance

lemma clearHideTimeout_eq_nil (s : Sys)
    (h2 : ∀ t ∈ s.timers, s.comp.hideTimeout = some t.id) :
    clearHideTimeout s = [] := by
  unfold clearHideTimeout
  cases hh : s.comp.hideTimeout with
  | none =>
      cases ht : s.timers with
      | nil => rfl
      | cons t ts =>
          have := h2 t (by rw [ht]; exact List.mem_cons_self t ts)
          rw [hh] at this
          cases this
  | some h =>
      rw [List.filter_eq_nil_iff]
      intro t htl
      have := h2 t htl
      rw [hh] at this
      simp only [Option.some.injEq] at this
      simp [this]

/-- Projections of `showCallback`: arming a timer touches neither the
animation fields nor the emitted-callback counters. -/
lemma showCallback_anim (s : Sys) :
    (showCallback s).comp.opacityTarget = s.comp.opacityTarget ∧
    (showCallback s).comp.opacityAnimating = s.comp.opacityAnimating ∧
    (showCallback s).comp.yTarget = s.comp.yTarget ∧
    (showCallback s).comp.yAnimating = s.comp.yAnimating ∧
    (showCallback s).dismissCalls = s.dismissCalls ∧
    (showCallback s).actionCalls = s.actionCalls := by
  unfold showCallback
  split
  · exact ⟨rfl, rfl, rfl, rfl, rfl, rfl⟩
  · exact ⟨rfl, rfl, rfl, rfl, rfl, rfl⟩

/-- `_show` retargets both values to the visible targets and starts both
animations, whether or not a preempted callback armed a timer. -/
lemma _show_anim (s : Sys) :
    (_show s).comp.opacityTarget = 1 ∧
    (_show s).comp.opacityAnimating = true ∧
    (_show s).comp.yTarget = 0 ∧
    (_show s).comp.yAnimating = true ∧
    (_show s).dismissCalls = s.dismissCalls ∧
    (_show s).actionCalls = s.actionCalls := by
  simp only [_show, showCallback]
  repeat' split
  all_goals exact ⟨rfl, rfl, rfl, rfl, rfl, rfl⟩

/-- `_hide` retargets both values to the hidden targets and starts both
animations, whether or not a preempted callback armed a timer. -/
lemma _hide_anim (s : Sys) :
    (_hide s).comp.opacityTarget = 0 ∧
    (_hide s).comp.opacityAnimating = true ∧
    (_hide s).comp.yTarget = 48 ∧
    (_hide s).comp.yAnimating = true ∧
    (_hide s).dismissCalls = s.dismissCalls ∧
    (_hide s).actionCalls = s.actionCalls := by
  simp only [_hide, showCallback]
  repeat' split
  all_goals exact ⟨rfl, rfl, rfl, rfl, rfl, rfl⟩

/-- When no show animation is in flight, `_hide` runs no preempted
callback: it just clears the handle's timer — emptying the timer list
when every armed timer is the handle's — and calls nothing. -/
lemma _hide_no_preempt (s : Sys) (hns : showInFlight s.comp = false)
    (h2 : ∀ t ∈ s.timers, s.comp.hideTimeout = some t.id) :
    (_hide s).timers = [] ∧ (_hide s).dismissCalls = s.dismissCalls := by
  have hnil : clearHideTimeout s = [] := clearHideTimeout_eq_nil s h2
  simp [_hide, hns, hnil]

/-- The lockstep property of the two animated values: both are animating
or neither is, and their targets form one of the two consistent pairs
(visible: opacity 1 / y 0; hidden: opacity 0 / y 48). -/
def lockstep (c : Component) : Prop :=
  c.opacityAnimating = c.yAnimating ∧
  ((c.opacityTarget = 1 ∧ c.yTarget = 0) ∨
   (c.opacityTarget = 0 ∧ c.yTarget = 48))

lemma lockstep_showCallback (s : Sys) (h : lockstep s.comp) :
    lockstep (showCallback s).comp := by
  unfold showCallback
  split
  · exact h
  · exact h

lemma lockstep_show (s : Sys) : lockstep (_show s).comp := by
  have h := _show_anim s
  refine ⟨?_, Or.inl ⟨h.1, h.2.2.1⟩⟩
  rw [h.2.1, h.2.2.2.1]

lemma lockstep_hide (s : Sys) : lockstep (_hide s).comp := by
  have h := _hide_anim s
  refine ⟨?_, Or.inr ⟨h.1, h.2.2.1⟩⟩
  rw [h.2.1, h.2.2.2.1]

lemma lockstep_stepOr (s : Sys) (e : Event) (h : lockstep s.comp) :
    lockstep (stepOr s e).comp := by
  obtain ⟨hA, hT⟩ := h
  cases e <;> simp only [stepOr, step] <;> repeat' split
  all_goals
    first
      | exact ⟨hA, hT⟩
      | exact lockstep_show _
      | exact lockstep_hide _
      | exact ⟨rfl, hT⟩
      | exact lockstep_showCallback _ ⟨rfl, hT⟩

lemma lockstep_init (visible : Bool) (dur : Duration) (hasAction : Bool) :
    lockstep (init visible dur hasAction).comp := by
  cases visible
  · exact ⟨rfl, Or.inr ⟨rfl, rfl⟩⟩
  · simp only [init, if_true]
    exact lockstep_show _

lemma lockstep_run (s : Sys) (es : List Event) (h : lockstep s.comp) :
    lockstep (run s es).comp := by
  induction es generalizing s with
  | nil => exact h
  | cons e es ih => exact ih _ (lockstep_stepOr s e h)

lemma timerFire_singleton (s : Sys) (i d : Nat) (h : s.timers = [⟨i, d⟩]) :
    (stepOr s (.timerFire i)).dismissCalls = s.dismissCalls + 1 ∧
    (stepOr s (.timerFire i)).timers = [] := by
  simp [stepOr, step, h]

/-- C1: The claim that the number of outstanding auto-dismiss timers is
always 0 or 1 fails on the code.  Hiding during the in-flight show runs
the preempted show's start-callback — the finished flag is ignored at
SnackBar.js lines 146-154 — arming a timer after `_hide`'s clearTimeout;
re-showing and letting that show complete arms a second timer and
repoints `_hideTimeout` at it.  After the toggle sequence
mount(visible, short) · setVisible false · setVisible true ·
showComplete, two timers are outstanding, and the handle names only the
second, leaving the first uncancellable. -/
theorem C1_two_timers_outstanding :
    (run (init true .short false)
        [.setVisible false, .setVisible true, .showComplete]).timers.length
      = 2 ∧
    (run (init true .short false)
        [.setVisible false, .setVisible true, .showComplete]).timers.map
        Timer.id = [1, 2] ∧
    (run (init true .short false)
        [.setVisible false, .setVisible true,
          .showComplete]).comp.hideTimeout = some 2 := by
  decide

/-- C2: The claim that a pending auto-dismiss timer is cancelled when the
component is destroyed fails on the code: the class declares no
componentWillUnmount, so after the trace
mount(visible, duration short) then showComplete then unmount the timer
is still armed on the destroyed component, and its firing still invokes
`onDismiss` — after destruction. -/
theorem C2_dismiss_fires_after_unmount :
    (run (init true .short false) [.showComplete, .unmount]).comp.mounted
        = false ∧
    (run (init true .short false) [.showComplete, .unmount]).timers.length
        = 1 ∧
    (run (init true .short false)
        [.showComplete, .unmount, .timerFire 1]).dismissAfterUnmount = 1 := by
  decide

/-- C3: The claim's cycle — `visible` set true, the show animation
completes (so it is no longer in flight), its timer is armed, then
`visible` is set false before the timer fires.  In any mounted
invariant state of that shape, triggering hide cancels every pending
auto-dismiss timer, does not itself invoke `onDismiss`, and afterwards
no timer firing is possible; hence the dismissal callback is invoked at
most once per show/hide cycle. -/
theorem C3_hide_cancels_pending_timer (s : Sys) (h : inv s)
    (hm : s.comp.mounted = true) (hv : s.comp.propsVisible = true)
    (hns : showInFlight s.comp = false) :
    (stepOr s (.setVisible false)).timers = [] ∧
    (stepOr s (.setVisible false)).dismissCalls = s.dismissCalls ∧
    ∀ i, step (stepOr s (.setVisible false)) (.timerFire i) = none := by
  have hred : stepOr s (.setVisible false)
      = _hide { s with comp := { s.comp with propsVisible := false } } := by
    simp [stepOr, step, hm, hv]
  have hfacts := _hide_no_preempt
      { s with comp := { s.comp with propsVisible := false } } hns h.2.1
  rw [hred]
  refine ⟨hfacts.1, hfacts.2, ?_⟩
  intro i
  simp [step, hfacts.1]

/-- `C3_hide_cancels_pending_timer` applied after the trace
init(visible, short) then showComplete: the show has genuinely
completed, exactly one timer is armed, and hiding cancels it. -/
theorem C3_hide_cancels_pending_timer_witness :
    (run (init true .short false) [.showComplete]).timers.length = 1 ∧
    (stepOr (run (init true .short false) [.showComplete])
        (.setVisible false)).timers = [] ∧
    (stepOr (run (init true .short false) [.showComplete])
        (.setVisible false)).dismissCalls
      = (run (init true .short false) [.showComplete]).dismissCalls ∧
    step (stepOr (run (init true .short false) [.showComplete])
        (.setVisible false)) (.timerFire 1) = none := by
  have h := C3_hide_cancels_pending_timer
      (run (init true .short false) [.showComplete])
      (by decide) (by decide) (by decide) (by decide)
  exact ⟨by decide, h.1, h.2.1, h.2.2 1⟩

/-- C4: The claim that no auto-dismiss timer from a preempted show later
fires fails on the code.  Setting `visible` back to false before the
show animation completes does retarget both values into the hide
animation, but `_hide`'s `start` stops the in-flight show and
synchronously runs its start-callback with finished:false; the callback
(SnackBar.js lines 146-154) ignores the flag and arms a timer — after
the clearTimeout, so nothing cancels it.  After the trace
mount(visible, short) · setVisible false, a 2000 ms timer is armed
although `visible` is false, and its firing invokes `onDismiss`. -/
theorem C4_preempted_show_timer_fires :
    (run (init true .short false) [.setVisible false]).comp.propsVisible
      = false ∧
    (run (init true .short false) [.setVisible false]).timers.map
        Timer.delay = [DURATION_SHORT] ∧
    (run (init true .short false)
        [.setVisible false, .timerFire 1]).dismissCalls = 1 := by
  decide

/-- C5: From any mounted invariant state whose show animation is in
flight: with `duration = short`, completion of the show arms exactly one
auto-dismiss timer, with delay DURATION_SHORT = 2000 ms, and its firing
invokes `onDismiss` exactly once and disarms it (the host not having set
`visible` to false in between); with `duration = indefinite` no timer is
armed. -/
theorem C5_short_arms_2000ms_timer (s : Sys) (h : inv s)
    (hm : s.comp.mounted = true) (hsf : showInFlight s.comp = true) :
    (s.comp.propsDuration = .short →
      (stepOr s .showComplete).timers = [⟨s.nextId, DURATION_SHORT⟩] ∧
      (stepOr (stepOr s .showComplete) (.timerFire s.nextId)).dismissCalls
          = s.dismissCalls + 1 ∧
      (stepOr (stepOr s .showComplete) (.timerFire s.nextId)).timers = []) ∧
    (s.comp.propsDuration = .indefinite →
      (stepOr s .showComplete).timers = []) := by
  have hnil : s.timers = [] := h.2.2.1 hsf
  constructor
  · intro hd
    have ht : (stepOr s .showComplete).timers = [⟨s.nextId, DURATION_SHORT⟩] ∧
        (stepOr s .showComplete).dismissCalls = s.dismissCalls := by
      constructor <;>
        simp [stepOr, step, hm, hsf, showCallback, hd, armTimeout,
          timeoutDelay, hnil]
    have hf := timerFire_singleton (stepOr s .showComplete) s.nextId
        DURATION_SHORT ht.1
    exact ⟨ht.1, by rw [hf.1, ht.2], hf.2⟩
  · intro hd
    simp [stepOr, step, hm, hsf, showCallback, hd, hnil]

/-- `C5_short_arms_2000ms_timer` applied to a freshly mounted visible
instance with duration short: the timer armed on completion has delay
2000 ms, and its firing dismisses exactly once. -/
theorem C5_short_arms_2000ms_timer_witness :
    (stepOr (init true .short false) .showComplete).timers
        = [⟨1, DURATION_SHORT⟩] ∧
    (stepOr (stepOr (init true .short false) .showComplete)
        (.timerFire 1)).dismissCalls
      = (init true .short false).dismissCalls + 1 ∧
    (stepOr (stepOr (init true .short false) .showComplete)
        (.timerFire 1)).timers = [] := by
  have h := (C5_short_arms_2000ms_timer (init true .short false)
      (by decide) (by decide) (by decide)).1 (by decide)
  exact ⟨h.1, h.2.1, h.2.2⟩

/-- C6 as stated is false at a concrete input: with the explicit numeric
duration 1000 ms, the auto-dismiss timer armed on show completion has
delay DURATION_LONG = 3500 ms, not 1000 ms. -/
theorem C6_numeric_duration_counterexample :
    (stepOr (init true (.numeric 1000) false) .showComplete).timers.map
        Timer.delay = [DURATION_LONG] ∧
    ¬ ((stepOr (init true (.numeric 1000) false) .showComplete).timers.map
        Timer.delay = [1000]) := by
  decide

/-- C6 amended: for every explicit numeric display duration, the timer
armed after the show animation completes has delay DURATION_LONG =
3500 ms — the code only distinguishes the values short (2000 ms) and
indefinite (no timer); an explicit numeric value is not honored. -/
theorem C6_numeric_duration_gets_long_delay (s : Sys) (n : Nat)
    (h : inv s) (hm : s.comp.mounted = true)
    (hsf : showInFlight s.comp = true)
    (hd : s.comp.propsDuration = .numeric n) :
    (stepOr s .showComplete).timers = [⟨s.nextId, DURATION_LONG⟩] := by
  have hnil : s.timers = [] := h.2.2.1 hsf
  simp [stepOr, step, hm, hsf, showCallback, hd, armTimeout, timeoutDelay,
    hnil]

/-- `C6_numeric_duration_gets_long_delay` applied to a freshly mounted
visible instance with numeric duration 1000 ms. -/
theorem C6_numeric_duration_gets_long_delay_witness :
    (stepOr (init true (.numeric 1000) false) .showComplete).timers
        = [⟨1, DURATION_LONG⟩] :=
  C6_numeric_duration_gets_long_delay (init true (.numeric 1000) false) 1000
    (by decide) (by decide) (by decide) (by decide)

/-- C7: In every mounted state rendered with an action descriptor —
whatever timers are armed or animations are in flight — a single tap on
the action control invokes the action's onPress callback exactly once
(and does not invoke `onDismiss`), and always immediately begins the
hide animation: both animated values retarget to their hidden targets
and start animating. -/
theorem C7_action_tap_once_then_hide (s : Sys)
    (hm : s.comp.mounted = true) (ha : s.comp.hasAction = true) :
    (stepOr s .tapAction).actionCalls = s.actionCalls + 1 ∧
    (stepOr s .tapAction).dismissCalls = s.dismissCalls ∧
    (stepOr s .tapAction).comp.opacityTarget = 0 ∧
    (stepOr s .tapAction).comp.opacityAnimating = true ∧
    (stepOr s .tapAction).comp.yTarget = 48 ∧
    (stepOr s .tapAction).comp.yAnimating = true := by
  have hred : stepOr s .tapAction
      = _hide { s with actionCalls := s.actionCalls + 1 } := by
    simp [stepOr, step, hm, ha]
  rw [hred]
  have h := _hide_anim { s with actionCalls := s.actionCalls + 1 }
  exact ⟨h.2.2.2.2.2, h.2.2.2.2.1, h.1, h.2.1, h.2.2.1, h.2.2.2.1⟩

/-- `C7_action_tap_once_then_hide` applied to a freshly mounted visible
instance with an action, whose show animation is still in flight: even
there the tap presses the action once and begins the hide. -/
theorem C7_action_tap_once_then_hide_witness :
    showInFlight (init true .long true).comp = true ∧
    (stepOr (init true .long true) .tapAction).actionCalls
      = (init true .long true).actionCalls + 1 ∧
    (stepOr (init true .long true) .tapAction).dismissCalls
      = (init true .long true).dismissCalls ∧
    (stepOr (init true .long true) .tapAction).comp.opacityTarget = 0 ∧
    (stepOr (init true .long true) .tapAction).comp.yTarget = 48 ∧
    (stepOr (init true .long true) .tapAction).comp.yAnimating = true := by
  have h := C7_action_tap_once_then_hide (init true .long true)
      (by decide) (by decide)
  exact ⟨by decide, h.1, h.2.1, h.2.2.1, h.2.2.2.2.1, h.2.2.2.2.2⟩

/-- C8: In every mounted state — whatever timers are armed or animations
are in flight — a tap on the Snackbar body invokes `onDismiss` directly
in that single synchronous step: no auto-dismiss timer firing and no
animation completion takes part. -/
theorem C8_body_tap_dismisses_directly (s : Sys)
    (hm : s.comp.mounted = true) :
    (stepOr s .tapBody).dismissCalls = s.dismissCalls + 1 := by
  simp [stepOr, step, hm]

/-- `C8_body_tap_dismisses_directly` applied to a freshly mounted visible
instance whose show animation is still in flight: the dismissal needs no
completed animation and no timer. -/
theorem C8_body_tap_dismisses_directly_witness :
    showInFlight (init true .long false).comp = true ∧
    (stepOr (init true .long false) .tapBody).dismissCalls
      = (init true .long false).dismissCalls + 1 := by
  have h := C8_body_tap_dismisses_directly (init true .long false) (by decide)
  exact ⟨by decide, h⟩

/-- C9: The two animated values always move in lockstep: `_show`
retargets both to the visible targets (opacity 1, yPosition 0) and
starts both animations, `_hide` retargets both to the hidden targets
(opacity 0, yPosition 48) and starts both, and in every reachable state
both values are animating or neither is, with targets forming a
consistent visible or hidden pair — neither value is ever animated
alone. -/
theorem C9_animations_in_lockstep (s : Sys) (visible : Bool)
    (dur : Duration) (hasAction : Bool) (es : List Event) :
    ((_show s).comp.opacityTarget = 1 ∧
     (_show s).comp.opacityAnimating = true ∧
     (_show s).comp.yTarget = 0 ∧ (_show s).comp.yAnimating = true) ∧
    ((_hide s).comp.opacityTarget = 0 ∧
     (_hide s).comp.opacityAnimating = true ∧
     (_hide s).comp.yTarget = 48 ∧ (_hide s).comp.yAnimating = true) ∧
    lockstep (run (init visible dur hasAction) es).comp :=
  ⟨⟨(_show_anim s).1, (_show_anim s).2.1, (_show_anim s).2.2.1,
      (_show_anim s).2.2.2.1⟩,
    ⟨(_hide_anim s).1, (_hide_anim s).2.1, (_hide_anim s).2.2.1,
      (_hide_anim s).2.2.2.1⟩,
    lockstep_run _ es (lockstep_init visible dur hasAction)⟩

/-- C10: A tap on the Snackbar body only invokes `onDismiss`: the whole
component-owned state — both animated values, the `_hideTimeout` handle,
the armed platform timers — is left unchanged, so the tap neither
cancels a pending timer nor starts the hide animation; those happen only
when the host subsequently sets `visible` to false. -/
theorem C10_body_tap_frame (s : Sys) (hm : s.comp.mounted = true) :
    step s .tapBody = some { s with dismissCalls := s.dismissCalls + 1 } := by
  simp [step, hm]

/-- `C10_body_tap_frame` applied after the trace init(visible, short)
then showComplete: the armed timer survives the body tap untouched. -/
theorem C10_body_tap_frame_witness :
    (run (init true .short false) [.showComplete]).timers.length = 1 ∧
    step (run (init true .short false) [.showComplete]) .tapBody
      = some { run (init true .short false) [.showComplete] with
          dismissCalls :=
            (run (init true .short false) [.showComplete]).dismissCalls
              + 1 } := by
  have h := C10_body_tap_frame (run (init true .short false) [.showComplete])
      (by decide)
  exact ⟨by decide, h⟩

end SnackBar
